import Mathlib

/-!
Verification development for the ESP-Drone autonomous-navigation subsystem.

The definitions below are a shallow embedding of
`src/Firmware/esp-drone/components/core/crazyflie/modules/src/autonav.c`
(navigation engine) and of the CRTP wire-command handler
`autonav_handle_packet` (in the unnamed source part that also defines the
handler task), against the headers `autonav.h` / `autonav_crtp.h`.

Modelling conventions:
* C `float` arithmetic is idealised as exact rational (`ℚ`) arithmetic; the
  constants 0.9, 0.1, 0.01, 0.04, 0.08, 0.93, 0.2, 0.87 are all exactly
  representable choices of the source and the claims under study concern
  clamped / exactly-representable quantities.
* `cosf` and `sinf` from libm (used only by the OVAL shape) are taken as
  function parameters `c s : ℚ → ℚ`, in the same way the external sensor
  hooks `sensorsGetDownTofMm` / `sensorsGetFrontTofMm` are passed in as
  `Option Nat` values (`none` = the hook returned `false`).
* The monotonic clock `esp_timer_get_time()` (microseconds, `uint64_t`)
  is passed in explicitly as `now : Nat`; `uint64`/`uint32`/`uint16`
  truncations are written with explicit `% 2 ^ w`.
* The float-to-`uint16_t` cast of a non-negative value truncates toward
  zero, i.e. it is `Int.toNat ∘ Rat.floor` here.
-/

/-- `autonav_state_t` from `autonav.h`: IDLE=0, RUNNING, HOLD_OBSTACLE,
LANDING, LANDED, OVERRIDE. -/
inductive AutonavState
  | idle
  | running
  | holdObstacle
  | landing
  | landed
  | override
  deriving DecidableEq, Repr

/-- Numeric code of a state, as produced by the C cast
`(uint8_t)autonavGetState()` (enum values 0..5 in declaration order). -/
def stateCode : AutonavState → Nat
  | AutonavState.idle => 0
  | AutonavState.running => 1
  | AutonavState.holdObstacle => 2
  | AutonavState.landing => 3
  | AutonavState.landed => 4
  | AutonavState.override => 5

-- ---- CONFIG (the #define block of autonav.c) ----

/-- `AUTONAV_DEFAULT_ALT_MM` = 1200. -/
def AUTONAV_DEFAULT_ALT_MM : Nat := 1200

/-- `SAFETY_TIMEOUT_MS` = 30000 (30 s without heartbeat forces landing). -/
def SAFETY_TIMEOUT_MS : Nat := 30000

/-- `OBSTACLE_THR_MM` = 800 (front ToF below 0.8 m means blocked). -/
def OBSTACLE_THR_MM : Nat := 800

/-- `OBSTACLE_MAX_WAIT_MS` = 30000 (30 s blocked forces landing). -/
def OBSTACLE_MAX_WAIT_MS : Nat := 30000

/-- `LOOP_DT_S` = 0.01 (100 Hz loop). -/
def LOOP_DT_S : ℚ := 1 / 100

/-- `HOVER_THRUST_BASE` = 30000.0. -/
def HOVER_THRUST_BASE : ℚ := 30000

/-- `Z_KP` = 1.0. -/
def Z_KP : ℚ := 1

/-- `Z_KI` = 0.04. -/
def Z_KI : ℚ := 4 / 100

/-- `Z_KD` = 0.08. -/
def Z_KD : ℚ := 8 / 100

/-- `SEGMENT_TIME_MS` = 3000 (3 s per trajectory edge). -/
def SEGMENT_TIME_MS : Nat := 3000

/-- `SHAPE_SPEED` = 0.2 m/s. -/
def SHAPE_SPEED : ℚ := 1 / 5

-- ---- STATE (the static variables of autonav.c, gathered in a record) ----

/-- The mutable module state of `autonav.c`: the statics `s_state`,
`s_targetAltMm`, `s_shapeId`, `s_lastCmdUs`, `s_obstEnterUs`,
`shapeStartUs`, `z_i`, `z_prevErr`, `altFilt`. -/
structure EngineState where
  s_state : AutonavState
  s_targetAltMm : Nat
  s_shapeId : Nat
  s_lastCmdUs : Nat
  s_obstEnterUs : Nat
  shapeStartUs : Nat
  z_i : ℚ
  z_prevErr : ℚ
  altFilt : ℚ
  deriving DecidableEq, Repr

/-- The fields of `setpoint_t` that `autonavUpdate` writes: `thrust`,
`velocity.x`, `velocity.y` (roll/pitch/yaw and z stay zeroed). -/
structure Setpoint where
  thrust : Nat
  vx : ℚ
  vy : ℚ
  deriving DecidableEq, Repr

/-- `memset(&sp, 0, sizeof(sp))`: the all-zero setpoint. -/
def Setpoint.zero : Setpoint := { thrust := 0, vx := 0, vy := 0 }

/-- The per-call inputs of `autonavUpdate`: the clock value returned by
`nowUs()` and the two ToF sensor hooks (`none` when the hook reports an
invalid reading). -/
structure UpdateInput where
  nowUs : Nat
  down : Option Nat
  front : Option Nat
  deriving DecidableEq, Repr

/-- `msSince(t0)` = `(nowUs() - t0) / 1000ULL` with `uint64_t` wrap-around
subtraction. -/
def msSince (now t0 : Nat) : Nat :=
  ((now % 2 ^ 64 + 2 ^ 64 - t0 % 2 ^ 64) % 2 ^ 64) / 1000

-- ---- Engine entry points ----

/-- `autonavSetTargetAltMm(uint16_t mm)`: store the (16-bit) target. -/
def autonavSetTargetAltMm (st : EngineState) (mm : Nat) : EngineState :=
  { st with s_targetAltMm := mm % 2 ^ 16 }

/-- `autonavGetState()`. -/
def autonavGetState (st : EngineState) : AutonavState := st.s_state

/-- `autonavKickSafety()`: `s_lastCmdUs = nowUs()`. -/
def autonavKickSafety (st : EngineState) (now : Nat) : EngineState :=
  { st with s_lastCmdUs := now }

/-- `autonavEnterOverride()`. -/
def autonavEnterOverride (st : EngineState) : EngineState :=
  { st with s_state := AutonavState.override }

/-- `autonavExitOverride()`: refresh the heartbeat and resume RUNNING. -/
def autonavExitOverride (st : EngineState) (now : Nat) : EngineState :=
  { st with s_lastCmdUs := now, s_state := AutonavState.running }

/-- `autonavIsOverride()`. -/
def autonavIsOverride (st : EngineState) : Bool :=
  decide (st.s_state = AutonavState.override)

/-- `autonavInit()`: reset every static. Note that `shapeStartUs` is NOT
touched by `autonavInit` in the C source; it keeps its static-zero initial
value, which is what the 0 here records. The `autonav_crtp_start()` call
(task creation) has no engine-state effect and is not modelled. -/
def autonavInit (now : Nat) : EngineState :=
  { s_state := AutonavState.idle,
    s_targetAltMm := AUTONAV_DEFAULT_ALT_MM,
    s_shapeId := 0,
    s_lastCmdUs := now,
    s_obstEnterUs := 0,
    shapeStartUs := 0,
    z_i := 0,
    z_prevErr := 0,
    altFilt := (AUTONAV_DEFAULT_ALT_MM : ℚ) }

/-- `autonavStartShape(uint8_t shapeId)`: select the shape, go RUNNING,
stamp the trajectory start, and kick the safety timer. -/
def autonavStartShape (st : EngineState) (shapeId now : Nat) : EngineState :=
  autonavKickSafety
    { st with s_shapeId := shapeId % 2 ^ 8,
              s_state := AutonavState.running,
              shapeStartUs := now } now

/-- `autonavStop()`. -/
def autonavStop (st : EngineState) : EngineState :=
  { st with s_shapeId := 0, s_state := AutonavState.idle }

-- ---- zHoldThrustCmd ----

/-- `zHoldThrustCmd(bool* tofOkOut)` from autonav.c: the altitude PID.
Returns (thrust command, `*tofOkOut`, updated engine state). On an invalid
down reading it returns `(uint16_t)(HOVER_THRUST_BASE * 0.93f)` and leaves
the filter/PID state untouched; otherwise it low-pass filters the reading,
updates the clamped integral and the previous error, and returns the
clamped PID thrust cast to `uint16_t`. -/
def zHoldThrustCmd (st : EngineState) (down : Option Nat) :
    Nat × Bool × EngineState :=
  match down with
  | none => (Int.toNat (HOVER_THRUST_BASE * (93 / 100) : ℚ).floor, false, st)
  | some altMm =>
    let altFilt := (9 / 10) * st.altFilt + (1 / 10) * (altMm : ℚ)
    let err := (st.s_targetAltMm : ℚ) - altFilt
    let zi0 := st.z_i + err * LOOP_DT_S
    let zi1 := if zi0 > 400 then 400 else zi0
    let zi2 := if zi1 < -400 then -400 else zi1
    let zd := (err - st.z_prevErr) / LOOP_DT_S
    let thrust0 := HOVER_THRUST_BASE + (Z_KP * err + Z_KI * zi2 + Z_KD * zd)
    let thrust1 := if thrust0 < 20000 then 20000 else thrust0
    let thrust2 := if thrust1 > 65000 then 65000 else thrust1
    (Int.toNat thrust2.floor, true,
      { st with altFilt := altFilt, z_i := zi2, z_prevErr := err })

-- ---- autonavUpdate ----

/-- Step 1 of `autonavUpdate`: the 30 s safety timeout. -/
def safetyStep (now : Nat) (st : EngineState) : EngineState :=
  if msSince now st.s_lastCmdUs > SAFETY_TIMEOUT_MS ∧
      st.s_state ≠ AutonavState.landing ∧ st.s_state ≠ AutonavState.landed
  then { st with s_state := AutonavState.landing }
  else st

/-- `blocked = (frontOk && frontMm < OBSTACLE_THR_MM)`. -/
def blockedOf (front : Option Nat) : Bool :=
  match front with
  | some mm => decide (mm < OBSTACLE_THR_MM)
  | none => false

/-- Horizontal velocity chosen by the shape logic inside the RUNNING case of
`autonavUpdate`, as a function of `s_shapeId` and the (already
`uint32_t`-truncated) elapsed shape time `tMs`. `c` and `s` stand for the
libm `cosf` / `sinf` used by the OVAL case. Shape ids with no case (0, ≥ 5)
leave the memset-zero velocity. -/
def shapeVel (c s : ℚ → ℚ) (shapeId tMs : Nat) : ℚ × ℚ :=
  let seg := tMs / SEGMENT_TIME_MS
  match shapeId with
  | 1 =>
    match seg % 4 with
    | 0 => (SHAPE_SPEED, 0)
    | 1 => (0, SHAPE_SPEED)
    | 2 => (-SHAPE_SPEED, 0)
    | _ => (0, -SHAPE_SPEED)
  | 2 =>
    match seg % 4 with
    | 0 => (SHAPE_SPEED, 0)
    | 1 => (0, SHAPE_SPEED / 2)
    | 2 => (-SHAPE_SPEED, 0)
    | _ => (0, -(SHAPE_SPEED / 2))
  | 3 =>
    match seg % 3 with
    | 0 => (SHAPE_SPEED, 0)
    | 1 => (-(SHAPE_SPEED / 2), SHAPE_SPEED * (87 / 100))
    | _ => (-(SHAPE_SPEED / 2), -(SHAPE_SPEED * (87 / 100)))
  | 4 => (SHAPE_SPEED * c ((tMs : ℚ) / 1000), (SHAPE_SPEED / 2) * s ((tMs : ℚ) / 1000))
  | _ => (0, 0)

/-- `autonavUpdate(uint32_t tickMs)`. Returns the new engine state and the
setpoint handed to `commanderSetSetpoint` (`none` on the OVERRIDE early
return, which does not emit a setpoint). Steps, in source order: the
safety timeout, `zHoldThrustCmd` (which always runs, regardless of state),
the front-ToF obstacle read, the OVERRIDE short-circuit (kick safety and
return), and then the state switch. In the LANDING case `commandLand`
zeroes the setpoint and the code immediately marks the state LANDED. -/
def autonavUpdate (c s : ℚ → ℚ) (st : EngineState) (inp : UpdateInput) :
    EngineState × Option Setpoint :=
  let st1 := safetyStep inp.nowUs st
  let z := zHoldThrustCmd st1 inp.down
  let st2 := z.2.2
  let blocked := blockedOf inp.front
  if st2.s_state = AutonavState.override then
    (autonavKickSafety st2 inp.nowUs, none)
  else
    match st2.s_state with
    | AutonavState.idle => (st2, some Setpoint.zero)
    | AutonavState.running =>
      if blocked then
        ({ st2 with s_state := AutonavState.holdObstacle,
                    s_obstEnterUs := inp.nowUs }, some Setpoint.zero)
      else
        let tMs := msSince inp.nowUs st2.shapeStartUs % 2 ^ 32
        let v := shapeVel c s st2.s_shapeId tMs
        (st2, some { thrust := z.1, vx := v.1, vy := v.2 })
    | AutonavState.holdObstacle =>
      if blocked = false then
        ({ st2 with s_state := AutonavState.running },
         some { thrust := z.1, vx := 0, vy := 0 })
      else if msSince inp.nowUs st2.s_obstEnterUs > OBSTACLE_MAX_WAIT_MS then
        ({ st2 with s_state := AutonavState.landing },
         some { thrust := z.1, vx := 0, vy := 0 })
      else
        (st2, some { thrust := z.1, vx := 0, vy := 0 })
    | AutonavState.landing =>
      ({ st2 with s_state := AutonavState.landed }, some Setpoint.zero)
    | AutonavState.landed => (st2, some Setpoint.zero)
    | AutonavState.override => (st2, some Setpoint.zero)

/-- Iterated `autonavUpdate` over a list of per-call inputs; returns the
final state and the list of emitted setpoint options, in call order. -/
def runUpdates (c s : ℚ → ℚ) (st : EngineState) :
    List UpdateInput → EngineState × List (Option Setpoint)
  | [] => (st, [])
  | i :: rest =>
    let r1 := autonavUpdate c s st i
    let r2 := runUpdates c s r1.1 rest
    (r2.1, r1.2 :: r2.2)

/-- Liveness of a call schedule: each call happens within the safety
timeout of the previous heartbeat (which, in OVERRIDE, is the previous
call itself). -/
def gapsOk : Nat → List UpdateInput → Bool
  | _, [] => true
  | last, i :: rest => decide (msSince i.nowUs last ≤ SAFETY_TIMEOUT_MS) && gapsOk i.nowUs rest

-- ---- Wire-command handler (autonav_handle_packet) ----

/-- `AUTONAV_CRTP_PORT` = 0x0D. -/
def AUTONAV_CRTP_PORT : Nat := 13

/-- `AUTONAV_CRTP_CH` = 0. -/
def AUTONAV_CRTP_CH : Nat := 0

/-- Command codes of `autonav_cmd_t` (autonav_crtp.h). -/
def AUTONAV_CMD_STOP : Nat := 0

/-- `AUTONAV_CMD_SQUARE` = 1. -/
def AUTONAV_CMD_SQUARE : Nat := 1

/-- `AUTONAV_CMD_RECT` = 2. -/
def AUTONAV_CMD_RECT : Nat := 2

/-- `AUTONAV_CMD_OVAL` = 3. -/
def AUTONAV_CMD_OVAL : Nat := 3

/-- `AUTONAV_CMD_TRI` = 4. -/
def AUTONAV_CMD_TRI : Nat := 4

/-- `AUTONAV_CMD_SET_ALT_MM` = 5. -/
def AUTONAV_CMD_SET_ALT_MM : Nat := 5

/-- `AUTONAV_CMD_OVERRIDE_ON` = 10. -/
def AUTONAV_CMD_OVERRIDE_ON : Nat := 10

/-- `AUTONAV_CMD_OVERRIDE_OFF` = 11. -/
def AUTONAV_CMD_OVERRIDE_OFF : Nat := 11

/-- A CRTP packet as seen by `autonav_handle_packet`: port, channel and the
`size`-byte data buffer (modelled as the list of its meaningful bytes, so
`pk->size` is `data.length` and `pk->data[0]` is the head). -/
structure CRTPPacket where
  port : Nat
  channel : Nat
  data : List Nat
  deriving DecidableEq, Repr

/-- `autonav_status_t`: the status reply (state code byte and the latest
down-ToF millimetre reading, 0 if unavailable). -/
structure autonav_status where
  state : Nat
  altMm : Nat
  deriving DecidableEq, Repr

/-- `u16le(p)` = `(uint16_t)(p[0] | (p[1] << 8))`. -/
def u16le (p0 p1 : Nat) : Nat := (p0 ||| (p1 <<< 8)) % 2 ^ 16

/-- `autonav_handle_packet` from the CRTP glue source. Drops packets with
the wrong port/channel or an empty payload (no reply, no state change);
otherwise dispatches on the command byte and then always emits a status
reply built from the post-dispatch state and the down sensor hook. `down`
is the value the `sensorsGetDownTofMm` hook would deliver (`none` = hook
returned false, leaving the reply's zero-initialised `alt`). -/
def autonav_handle_packet (st : EngineState) (now : Nat) (down : Option Nat)
    (pk : CRTPPacket) : EngineState × Option autonav_status :=
  if pk.port ≠ AUTONAV_CRTP_PORT ∨ pk.channel ≠ AUTONAV_CRTP_CH then (st, none)
  else
    match pk.data with
    | [] => (st, none)
    | cmd :: payload =>
      let st1 :=
        if cmd = AUTONAV_CMD_STOP then autonavKickSafety (autonavStop st) now
        else if cmd = AUTONAV_CMD_SQUARE then
          autonavKickSafety (autonavStartShape st 1 now) now
        else if cmd = AUTONAV_CMD_RECT then
          autonavKickSafety (autonavStartShape st 2 now) now
        else if cmd = AUTONAV_CMD_OVAL then
          autonavKickSafety (autonavStartShape st 3 now) now
        else if cmd = AUTONAV_CMD_TRI then
          autonavKickSafety (autonavStartShape st 4 now) now
        else if cmd = AUTONAV_CMD_SET_ALT_MM then
          match payload with
          | b0 :: b1 :: _ =>
            autonavKickSafety (autonavSetTargetAltMm st (u16le b0 b1)) now
          | _ => st
        else if cmd = AUTONAV_CMD_OVERRIDE_ON then
          autonavKickSafety (autonavEnterOverride st) now
        else if cmd = AUTONAV_CMD_OVERRIDE_OFF then autonavKickSafety st now
        else st
      (st1, some { state := stateCode st1.s_state, altMm := down.getD 0 })

-- ---- Helper lemmas (shared) ----

/-- `zHoldThrustCmd` never changes the navigation state field. -/
theorem zHold_s_state (st : EngineState) (d : Option Nat) :
    ((zHoldThrustCmd st d).2.2).s_state = st.s_state := by
  cases d <;> rfl

/-- `zHoldThrustCmd` never changes the heartbeat timestamp. -/
theorem zHold_s_lastCmdUs (st : EngineState) (d : Option Nat) :
    ((zHoldThrustCmd st d).2.2).s_lastCmdUs = st.s_lastCmdUs := by
  cases d <;> rfl

/-- `zHoldThrustCmd` never changes the obstacle-entry timestamp. -/
theorem zHold_s_obstEnterUs (st : EngineState) (d : Option Nat) :
    ((zHoldThrustCmd st d).2.2).s_obstEnterUs = st.s_obstEnterUs := by
  cases d <;> rfl

/-- `zHoldThrustCmd` never changes the trajectory start timestamp. -/
theorem zHold_shapeStartUs (st : EngineState) (d : Option Nat) :
    ((zHoldThrustCmd st d).2.2).shapeStartUs = st.shapeStartUs := by
  cases d <;> rfl

/-- `zHoldThrustCmd` never changes the shape selector. -/
theorem zHold_s_shapeId (st : EngineState) (d : Option Nat) :
    ((zHoldThrustCmd st d).2.2).s_shapeId = st.s_shapeId := by
  cases d <;> rfl

/-- `zHoldThrustCmd` never changes the altitude target. -/
theorem zHold_s_targetAltMm (st : EngineState) (d : Option Nat) :
    ((zHoldThrustCmd st d).2.2).s_targetAltMm = st.s_targetAltMm := by
  cases d <;> rfl

/-- The safety step is the identity while the heartbeat is younger than the
timeout. -/
theorem safetyStep_of_le (now : Nat) (st : EngineState)
    (h : msSince now st.s_lastCmdUs ≤ SAFETY_TIMEOUT_MS) :
    safetyStep now st = st := by
  unfold safetyStep
  rw [if_neg]
  intro hc
  exact absurd hc.1 (by omega)

/-- `Rat.floor` (used because it is executable) agrees with the floor of
the `FloorRing` instance of `ℚ`. -/
theorem ratFloor_eq_intFloor (q : ℚ) : q.floor = ⌊q⌋ :=
  (Rat.floor_def' q).trans Rat.floor_def.symm

/-- Once LANDED, `autonavUpdate` keeps the state LANDED. -/
theorem landed_stays (c s : ℚ → ℚ) (st : EngineState) (inp : UpdateInput)
    (h : st.s_state = AutonavState.landed) :
    (autonavUpdate c s st inp).1.s_state = AutonavState.landed := by
  have h1 : safetyStep inp.nowUs st = st := by
    unfold safetyStep
    rw [if_neg]
    intro hc
    exact hc.2.2 h
  have hst2 : ((zHoldThrustCmd (safetyStep inp.nowUs st) inp.down).2.2).s_state =
      AutonavState.landed := by
    rw [h1, zHold_s_state]
    exact h
  simp [autonavUpdate, hst2]

/-- Claim C8: on an invalid down-ToF reading, the hold-thrust computation
returns exactly `HOVER_THRUST_BASE * 0.93 = 27900`, reports the reading as
invalid to its caller, and leaves the whole engine state (in particular the
filtered altitude, the integral accumulator and the previous error)
unchanged; no failure is propagated. -/
theorem invalid_down_sensor_fallback (st : EngineState) :
    zHoldThrustCmd st none = (27900, false, st) := by
  have h0 : (HOVER_THRUST_BASE * (93 / 100) : ℚ) = 27900 := by
    norm_num [HOVER_THRUST_BASE]
  have h : Int.toNat (HOVER_THRUST_BASE * (93 / 100) : ℚ).floor = 27900 := by
    rw [h0, ratFloor_eq_intFloor]
    norm_num
    rfl
  simp [zHoldThrustCmd, h]

/-- Claim C2: the handler's OVERRIDE_OFF (code 11) branch only refreshes
the safety timer: for every engine state the result is exactly the input
state with `s_lastCmdUs` set to now (so the navigation state, shape
selector and target altitude are unchanged, and an OVERRIDE state remains
OVERRIDE), together with the usual status reply; the engine's exit-override
transition is never taken. -/
theorem override_off_only_kicks_safety (st : EngineState) (now : Nat)
    (down : Option Nat) (rest : List Nat) :
    autonav_handle_packet st now down
      { port := AUTONAV_CRTP_PORT, channel := AUTONAV_CRTP_CH,
        data := AUTONAV_CMD_OVERRIDE_OFF :: rest } =
      ({ st with s_lastCmdUs := now },
       some { state := stateCode st.s_state, altMm := down.getD 0 }) := by
  simp [autonav_handle_packet, autonavKickSafety, AUTONAV_CRTP_PORT,
    AUTONAV_CRTP_CH, AUTONAV_CMD_STOP, AUTONAV_CMD_SQUARE, AUTONAV_CMD_RECT,
    AUTONAV_CMD_OVAL, AUTONAV_CMD_TRI, AUTONAV_CMD_SET_ALT_MM,
    AUTONAV_CMD_OVERRIDE_ON, AUTONAV_CMD_OVERRIDE_OFF]

/-- Claim C1, counterexample: starting a SQUARE run with the last kick at
t = 0 and driving `autonavUpdate` with valid sensor input at the first
instant where the elapsed time (30001 ms) exceeds the 30000 ms timeout, the
state reported by `autonavGetState` after that very call is already LANDED,
not LANDING: the forced LANDING is consumed by the LANDING switch case of
the same call. -/
theorem safety_timeout_first_call_not_landing_cex :
    msSince 30001000 (autonavStartShape (autonavInit 0) 1 0).s_lastCmdUs = 30001 ∧
    autonavGetState
      (autonavUpdate (fun _ => 0) (fun _ => 0)
        (autonavStartShape (autonavInit 0) 1 0)
        { nowUs := 30001000, down := some 1200, front := some 2000 }).1 =
      AutonavState.landed ∧
    AutonavState.landed ≠ AutonavState.landing := by
  decide

/-- Claim C1, amended: at the first `autonavUpdate` call whose elapsed time
since the last kick exceeds 30000 ms, the state passes through LANDING
inside the call and `autonavGetState` reports LANDED already at the end of
that same call; every following call keeps reporting LANDED. -/
theorem safety_timeout_lands_within_first_expired_call (c s : ℚ → ℚ)
    (st : EngineState) (inp : UpdateInput)
    (h : msSince inp.nowUs st.s_lastCmdUs > SAFETY_TIMEOUT_MS) :
    (autonavUpdate c s st inp).1.s_state = AutonavState.landed ∧
    ∀ inp2 : UpdateInput,
      (autonavUpdate c s (autonavUpdate c s st inp).1 inp2).1.s_state =
        AutonavState.landed := by
  have hstep : (safetyStep inp.nowUs st).s_state = AutonavState.landing ∨
      (safetyStep inp.nowUs st).s_state = AutonavState.landed := by
    unfold safetyStep
    by_cases h1 : st.s_state = AutonavState.landing
    · rw [if_neg fun hc => hc.2.1 h1]
      left
      exact h1
    · by_cases h2 : st.s_state = AutonavState.landed
      · rw [if_neg fun hc => hc.2.2 h2]
        right
        exact h2
      · rw [if_pos ⟨h, h1, h2⟩]
        left
        rfl
  have hfirst : (autonavUpdate c s st inp).1.s_state = AutonavState.landed := by
    rcases hstep with hl | hl
    · have hst2 : ((zHoldThrustCmd (safetyStep inp.nowUs st) inp.down).2.2).s_state =
          AutonavState.landing := by
        rw [zHold_s_state]
        exact hl
      simp [autonavUpdate, hst2]
    · have hst2 : ((zHoldThrustCmd (safetyStep inp.nowUs st) inp.down).2.2).s_state =
          AutonavState.landed := by
        rw [zHold_s_state]
        exact hl
      simp [autonavUpdate, hst2]
  exact ⟨hfirst, fun inp2 => landed_stays c s _ inp2 hfirst⟩

/-- Claim C1, witness: from a freshly initialised engine (last kick at 0),
the call at 30001 ms reports LANDED and so does the next call. -/
theorem safety_timeout_lands_witness :
    (autonavUpdate (fun _ => 0) (fun _ => 0) (autonavInit 0)
        { nowUs := 30001000, down := some 1200, front := some 2000 }).1.s_state =
      AutonavState.landed ∧
    (autonavUpdate (fun _ => 0) (fun _ => 0)
        (autonavUpdate (fun _ => 0) (fun _ => 0) (autonavInit 0)
          { nowUs := 30001000, down := some 1200, front := some 2000 }).1
        { nowUs := 30011000, down := some 1200, front := some 2000 }).1.s_state =
      AutonavState.landed := by
  have h := safety_timeout_lands_within_first_expired_call (fun _ => 0) (fun _ => 0)
    (autonavInit 0) { nowUs := 30001000, down := some 1200, front := some 2000 }
    (by decide)
  exact ⟨h.1, h.2 { nowUs := 30011000, down := some 1200, front := some 2000 }⟩

/-- Claim C10: the safety-timeout check runs before the override
short-circuit, so one `autonavUpdate` call entered in OVERRIDE with more
than 30000 ms since the last kick leaves OVERRIDE: the state is forced
to LANDING and reaches LANDED by the end of that same call, and the
all-zero landing setpoint is emitted. -/
theorem override_timeout_forces_landing (c s : ℚ → ℚ) (st : EngineState)
    (inp : UpdateInput) (hov : st.s_state = AutonavState.override)
    (h : msSince inp.nowUs st.s_lastCmdUs > SAFETY_TIMEOUT_MS) :
    (autonavUpdate c s st inp).1.s_state = AutonavState.landed ∧
    (autonavUpdate c s st inp).2 = some Setpoint.zero := by
  have h1 : safetyStep inp.nowUs st = { st with s_state := AutonavState.landing } := by
    unfold safetyStep
    rw [if_pos ⟨h, by simp [hov], by simp [hov]⟩]
  have hst2 : ((zHoldThrustCmd (safetyStep inp.nowUs st) inp.down).2.2).s_state =
      AutonavState.landing := by
    rw [zHold_s_state, h1]
  constructor <;> simp [autonavUpdate, hst2]

/-- Claim C10, witness: a concrete OVERRIDE session whose heartbeat is
30001 ms old is landed (state LANDED, zero setpoint) by one call. -/
theorem override_timeout_forces_landing_witness :
    (autonavUpdate (fun _ => 0) (fun _ => 0)
        (autonavEnterOverride (autonavStartShape (autonavInit 0) 1 0))
        { nowUs := 30001000, down := some 1200, front := some 2000 }).1.s_state =
      AutonavState.landed ∧
    (autonavUpdate (fun _ => 0) (fun _ => 0)
        (autonavEnterOverride (autonavStartShape (autonavInit 0) 1 0))
        { nowUs := 30001000, down := some 1200, front := some 2000 }).2 =
      some Setpoint.zero :=
  override_timeout_forces_landing (fun _ => 0) (fun _ => 0)
    (autonavEnterOverride (autonavStartShape (autonavInit 0) 1 0))
    { nowUs := 30001000, down := some 1200, front := some 2000 }
    (by decide) (by decide)

/-- The integral accumulator after an `autonavUpdate` is whatever
`zHoldThrustCmd` left (no state-machine branch touches `z_i`). -/
theorem update_z_i (c s : ℚ → ℚ) (st : EngineState) (inp : UpdateInput) :
    (autonavUpdate c s st inp).1.z_i =
      ((zHoldThrustCmd (safetyStep inp.nowUs st) inp.down).2.2).z_i := by
  simp only [autonavUpdate]
  split
  · rfl
  · split <;> first | rfl | (split <;> first | rfl | (split <;> rfl))

/-- After a valid reading, the integral accumulator left by
`zHoldThrustCmd` respects the anti-windup clamp. -/
theorem zHold_z_i_bounds (st : EngineState) (m : Nat) :
    -400 ≤ ((zHoldThrustCmd st (some m)).2.2).z_i ∧
      ((zHoldThrustCmd st (some m)).2.2).z_i ≤ 400 := by
  simp only [zHoldThrustCmd]
  split_ifs <;> constructor <;> linarith

/-- The source's two-sided thrust clamp followed by the `uint16_t` cast
lands in `[20000, 65000]`, whatever the raw PID output `t` was. -/
theorem clamp_floor_toNat_bounds (t : ℚ) :
    20000 ≤ Int.toNat ((if (if t < 20000 then (20000 : ℚ) else t) > 65000 then 65000
      else if t < 20000 then (20000 : ℚ) else t).floor) ∧
    Int.toNat ((if (if t < 20000 then (20000 : ℚ) else t) > 65000 then 65000
      else if t < 20000 then (20000 : ℚ) else t).floor) ≤ 65000 := by
  set v := (if (if t < 20000 then (20000 : ℚ) else t) > 65000 then (65000 : ℚ)
      else if t < 20000 then (20000 : ℚ) else t) with hv
  have hq : (20000 : ℚ) ≤ v ∧ v ≤ 65000 := by
    rw [hv]
    split_ifs <;> constructor <;> linarith
  have hlo : (20000 : ℤ) ≤ Rat.floor v := by
    rw [ratFloor_eq_intFloor]
    exact Int.le_floor.mpr (by exact_mod_cast hq.1)
  have hhi : Rat.floor v ≤ 65000 := by
    rw [ratFloor_eq_intFloor]
    have h1 : ((⌊v⌋ : ℤ) : ℚ) ≤ v := Int.floor_le v
    have h2 : ((⌊v⌋ : ℤ) : ℚ) ≤ 65000 := le_trans h1 hq.2
    exact_mod_cast h2
  constructor <;> omega

/-- On a valid reading, the thrust command of `zHoldThrustCmd` respects the
output clamp `[20000, 65000]`. -/
theorem zHold_thrust_bounds (st : EngineState) (m : Nat) :
    20000 ≤ (zHoldThrustCmd st (some m)).1 ∧
      (zHoldThrustCmd st (some m)).1 ≤ 65000 := by
  simp only [zHoldThrustCmd]
  exact clamp_floor_toNat_bounds _

/-- Claim C4: after every `autonavUpdate` whose down-ToF reading is valid,
the integral accumulator lies in `[-400, 400]` and the hold thrust computed
by `zHoldThrustCmd` lies in `[20000, 65000]` — for every engine state (so
for every sequence of readings and target altitudes). -/
theorem controller_clamps_invariant (c s : ℚ → ℚ) (st : EngineState)
    (inp : UpdateInput) (m : Nat) (hdown : inp.down = some m) :
    (-400 ≤ (autonavUpdate c s st inp).1.z_i ∧
      (autonavUpdate c s st inp).1.z_i ≤ 400) ∧
    (20000 ≤ (zHoldThrustCmd st (some m)).1 ∧
      (zHoldThrustCmd st (some m)).1 ≤ 65000) := by
  refine ⟨?_, zHold_thrust_bounds st m⟩
  rw [update_z_i, hdown]
  exact zHold_z_i_bounds _ m

/-- Claim C4, witness at a freshly initialised engine and a valid 1200 mm
reading. -/
theorem controller_clamps_invariant_witness :
    (-400 ≤ (autonavUpdate (fun _ => 0) (fun _ => 0) (autonavInit 0)
        { nowUs := 10000, down := some 1200, front := some 2000 }).1.z_i ∧
      (autonavUpdate (fun _ => 0) (fun _ => 0) (autonavInit 0)
        { nowUs := 10000, down := some 1200, front := some 2000 }).1.z_i ≤ 400) ∧
    (20000 ≤ (zHoldThrustCmd (autonavInit 0) (some 1200)).1 ∧
      (zHoldThrustCmd (autonavInit 0) (some 1200)).1 ≤ 65000) :=
  controller_clamps_invariant (fun _ => 0) (fun _ => 0) (autonavInit 0)
    { nowUs := 10000, down := some 1200, front := some 2000 } 1200 rfl

/-- Claim C6: a `SET_ALTITUDE_MM` (code 5) packet on port 0x0D, channel 0
with at least 2 payload bytes sets the target altitude to exactly the
little-endian 16-bit value of those bytes and kicks the safety timer,
leaving everything else unchanged; the engine setter enforces no bounds on
any 16-bit value; and the payload bytes `[0xB0, 0x04]` decode to 1200. -/
theorem set_altitude_round_trip :
    (∀ (st : EngineState) (now : Nat) (down : Option Nat) (b0 b1 : Nat)
        (rest : List Nat),
      autonav_handle_packet st now down
        { port := AUTONAV_CRTP_PORT, channel := AUTONAV_CRTP_CH,
          data := AUTONAV_CMD_SET_ALT_MM :: b0 :: b1 :: rest } =
        ({ st with s_targetAltMm := u16le b0 b1, s_lastCmdUs := now },
         some { state := stateCode st.s_state, altMm := down.getD 0 })) ∧
    (∀ mm : Nat, mm < 2 ^ 16 → ∀ st : EngineState,
      (autonavSetTargetAltMm st mm).s_targetAltMm = mm) ∧
    u16le 176 4 = 1200 := by
  refine ⟨?_, ?_, by decide⟩
  · intro st now down b0 b1 rest
    have hmod : u16le b0 b1 % 2 ^ 16 = u16le b0 b1 := by
      unfold u16le
      exact Nat.mod_mod_of_dvd _ dvd_rfl
    simp [autonav_handle_packet, autonavKickSafety, autonavSetTargetAltMm,
      AUTONAV_CRTP_PORT, AUTONAV_CRTP_CH, AUTONAV_CMD_STOP, AUTONAV_CMD_SQUARE,
      AUTONAV_CMD_RECT, AUTONAV_CMD_OVAL, AUTONAV_CMD_TRI,
      AUTONAV_CMD_SET_ALT_MM, AUTONAV_CMD_OVERRIDE_ON, AUTONAV_CMD_OVERRIDE_OFF,
      hmod]
    have := Nat.mod_lt (b0 ||| (b1 <<< 8)) (y := 2 ^ 16) (by norm_num)
    unfold u16le
    omega
  · intro mm hmm st
    simp [autonavSetTargetAltMm, Nat.mod_eq_of_lt hmm]
    omega

/-- Claim C6, witness: payload `[0xB0, 0x04]` drives the target to exactly
1200 mm, and the raw setter keeps any in-range 16-bit value as is. -/
theorem set_altitude_round_trip_witness :
    (autonav_handle_packet (autonavInit 0) 7 (some 1200)
        { port := 13, channel := 0, data := [5, 176, 4] }).1.s_targetAltMm = 1200 ∧
    (autonavSetTargetAltMm (autonavInit 0) 3000).s_targetAltMm = 3000 := by
  have h := set_altitude_round_trip
  have h1 := h.1 (autonavInit 0) 7 (some 1200) 176 4 []
  have h2 := h.2.1 3000 (by decide) (autonavInit 0)
  refine ⟨?_, h2⟩
  rw [show ({ port := 13, channel := 0, data := [5, 176, 4] } : CRTPPacket) =
      { port := AUTONAV_CRTP_PORT, channel := AUTONAV_CRTP_CH,
        data := AUTONAV_CMD_SET_ALT_MM :: 176 :: 4 :: ([] : List Nat) } from rfl, h1]
  exact h.2.2

/-- Claim C9: a packet on the right port/channel whose command code is none
of {0,1,2,3,4,5,10,11} changes nothing in the engine state (state, shape,
target, heartbeat) yet still gets a status reply carrying the current state
code and down reading, whereas a wrong-port/wrong-channel packet or an
empty-payload packet produces no reply and no state change. -/
theorem unknown_command_replies_without_state_change :
    (∀ (st : EngineState) (now : Nat) (down : Option Nat) (cmd : Nat)
        (rest : List Nat),
      cmd ≠ 0 → cmd ≠ 1 → cmd ≠ 2 → cmd ≠ 3 → cmd ≠ 4 → cmd ≠ 5 →
      cmd ≠ 10 → cmd ≠ 11 →
      autonav_handle_packet st now down
        { port := AUTONAV_CRTP_PORT, channel := AUTONAV_CRTP_CH,
          data := cmd :: rest } =
        (st, some { state := stateCode st.s_state, altMm := down.getD 0 })) ∧
    (∀ (st : EngineState) (now : Nat) (down : Option Nat) (pk : CRTPPacket),
      pk.port ≠ AUTONAV_CRTP_PORT ∨ pk.channel ≠ AUTONAV_CRTP_CH →
      autonav_handle_packet st now down pk = (st, none)) ∧
    (∀ (st : EngineState) (now : Nat) (down : Option Nat) (port channel : Nat),
      autonav_handle_packet st now down
        { port := port, channel := channel, data := [] } = (st, none)) := by
  refine ⟨?_, ?_, ?_⟩
  · intro st now down cmd rest h0 h1 h2 h3 h4 h5 h10 h11
    simp [autonav_handle_packet, AUTONAV_CRTP_PORT, AUTONAV_CRTP_CH,
      AUTONAV_CMD_STOP, AUTONAV_CMD_SQUARE, AUTONAV_CMD_RECT, AUTONAV_CMD_OVAL,
      AUTONAV_CMD_TRI, AUTONAV_CMD_SET_ALT_MM, AUTONAV_CMD_OVERRIDE_ON,
      AUTONAV_CMD_OVERRIDE_OFF, h0, h1, h2, h3, h4, h5, h10, h11]
  · intro st now down pk h
    unfold autonav_handle_packet
    rw [if_pos h]
  · intro st now down port channel
    unfold autonav_handle_packet
    split
    · rfl
    · rfl

/-- Claim C9, witness: command code 99 leaves the initial engine state
untouched but is acknowledged; a port-12 packet and an empty packet on the
right port are both dropped without reply. -/
theorem unknown_command_replies_witness :
    autonav_handle_packet (autonavInit 0) 7 (some 1200)
      { port := 13, channel := 0, data := [99, 1] } =
      (autonavInit 0, some { state := 0, altMm := 1200 }) ∧
    autonav_handle_packet (autonavInit 0) 7 (some 1200)
      { port := 12, channel := 0, data := [5, 176, 4] } = (autonavInit 0, none) ∧
    autonav_handle_packet (autonavInit 0) 7 (some 1200)
      { port := 13, channel := 0, data := [] } = (autonavInit 0, none) := by
  have h := unknown_command_replies_without_state_change
  refine ⟨?_, ?_, ?_⟩
  · exact h.1 (autonavInit 0) 7 (some 1200) 99 [1] (by decide) (by decide)
      (by decide) (by decide) (by decide) (by decide) (by decide) (by decide)
  · exact h.2.1 (autonavInit 0) 7 (some 1200)
      { port := 12, channel := 0, data := [5, 176, 4] } (Or.inl (by decide))
  · exact h.2.2 (autonavInit 0) 7 (some 1200) 13 0

/-- Claim C3: obstacle hold and resume. From RUNNING (with the safety
timer alive), a valid forward reading under 800 mm moves the state to
HOLD_OBSTACLE and records the obstacle-entry timestamp. In HOLD_OBSTACLE
the emitted setpoint is always the hold thrust with zero horizontal
velocity; a reading of 800 mm or more returns the state to RUNNING; a
still-blocked reading forces LANDING once more than 30000 ms have passed
since obstacle entry, and otherwise keeps HOLD_OBSTACLE. -/
theorem obstacle_hold_and_resume (c s : ℚ → ℚ) :
    (∀ (st : EngineState) (inp : UpdateInput) (f : Nat),
      st.s_state = AutonavState.running →
      msSince inp.nowUs st.s_lastCmdUs ≤ SAFETY_TIMEOUT_MS →
      inp.front = some f → f < OBSTACLE_THR_MM →
      (autonavUpdate c s st inp).1.s_state = AutonavState.holdObstacle ∧
      (autonavUpdate c s st inp).1.s_obstEnterUs = inp.nowUs) ∧
    (∀ (st : EngineState) (inp : UpdateInput),
      st.s_state = AutonavState.holdObstacle →
      msSince inp.nowUs st.s_lastCmdUs ≤ SAFETY_TIMEOUT_MS →
      (autonavUpdate c s st inp).2 =
        some { thrust := (zHoldThrustCmd st inp.down).1, vx := 0, vy := 0 } ∧
      (∀ f : Nat, inp.front = some f → OBSTACLE_THR_MM ≤ f →
        (autonavUpdate c s st inp).1.s_state = AutonavState.running) ∧
      (∀ f : Nat, inp.front = some f → f < OBSTACLE_THR_MM →
        msSince inp.nowUs st.s_obstEnterUs > OBSTACLE_MAX_WAIT_MS →
        (autonavUpdate c s st inp).1.s_state = AutonavState.landing) ∧
      (∀ f : Nat, inp.front = some f → f < OBSTACLE_THR_MM →
        msSince inp.nowUs st.s_obstEnterUs ≤ OBSTACLE_MAX_WAIT_MS →
        (autonavUpdate c s st inp).1.s_state = AutonavState.holdObstacle)) := by
  constructor
  · intro st inp f hst hsafe hfront hf
    have h1 : safetyStep inp.nowUs st = st := safetyStep_of_le _ _ hsafe
    have hst2 : ((zHoldThrustCmd (safetyStep inp.nowUs st) inp.down).2.2).s_state =
        AutonavState.running := by
      rw [h1, zHold_s_state]
      exact hst
    have hbl : blockedOf inp.front = true := by
      rw [hfront]
      simp [blockedOf]
      exact hf
    constructor <;> simp [autonavUpdate, hst2, hbl]
  · intro st inp hst hsafe
    have h1 : safetyStep inp.nowUs st = st := safetyStep_of_le _ _ hsafe
    have hst2 : ((zHoldThrustCmd (safetyStep inp.nowUs st) inp.down).2.2).s_state =
        AutonavState.holdObstacle := by
      rw [h1, zHold_s_state]
      exact hst
    refine ⟨?_, ?_, ?_, ?_⟩
    · have hobst : ((zHoldThrustCmd (safetyStep inp.nowUs st) inp.down).2.2).s_obstEnterUs =
          st.s_obstEnterUs := by
        rw [h1, zHold_s_obstEnterUs]
      cases hb : blockedOf inp.front with
      | false =>
        simp [autonavUpdate, hst2, hb]
        rw [h1]
      | true =>
        by_cases hw : msSince inp.nowUs st.s_obstEnterUs > OBSTACLE_MAX_WAIT_MS
        · simp [autonavUpdate, hst2, hb, hobst, hw]
          rw [h1]
        · simp [autonavUpdate, hst2, hb, hobst, hw]
          rw [h1]
    · intro f hfront hf
      have hbl : blockedOf inp.front = false := by
        rw [hfront]
        simp [blockedOf]
        omega
      simp [autonavUpdate, hst2, hbl]
    · intro f hfront hf hwait
      have hbl : blockedOf inp.front = true := by
        rw [hfront]
        simp [blockedOf]
        exact hf
      have hobst : ((zHoldThrustCmd (safetyStep inp.nowUs st) inp.down).2.2).s_obstEnterUs =
          st.s_obstEnterUs := by
        rw [h1, zHold_s_obstEnterUs]
      simp [autonavUpdate, hst2, hbl, hobst, hwait]
    · intro f hfront hf hwait
      have hbl : blockedOf inp.front = true := by
        rw [hfront]
        simp [blockedOf]
        exact hf
      have hobst : ((zHoldThrustCmd (safetyStep inp.nowUs st) inp.down).2.2).s_obstEnterUs =
          st.s_obstEnterUs := by
        rw [h1, zHold_s_obstEnterUs]
      have hnw : ¬ msSince inp.nowUs st.s_obstEnterUs > OBSTACLE_MAX_WAIT_MS := by
        omega
      simp [autonavUpdate, hst2, hbl, hobst, hnw]

/-- Claim C3, witness: a 500 mm forward reading takes a fresh SQUARE run
into HOLD_OBSTACLE, and a 2000 mm reading takes a concrete HOLD_OBSTACLE
state back to RUNNING. -/
theorem obstacle_hold_and_resume_witness :
    (autonavUpdate (fun _ => 0) (fun _ => 0)
        (autonavStartShape (autonavInit 0) 1 0)
        { nowUs := 1000, down := some 1200, front := some 500 }).1.s_state =
      AutonavState.holdObstacle ∧
    (autonavUpdate (fun _ => 0) (fun _ => 0)
        { s_state := AutonavState.holdObstacle, s_targetAltMm := 1200,
          s_shapeId := 1, s_lastCmdUs := 0, s_obstEnterUs := 1000,
          shapeStartUs := 0, z_i := 0, z_prevErr := 0, altFilt := 1200 }
        { nowUs := 2000, down := some 1200, front := some 2000 }).1.s_state =
      AutonavState.running := by
  have h := obstacle_hold_and_resume (fun _ => 0) (fun _ => 0)
  constructor
  · exact (h.1 (autonavStartShape (autonavInit 0) 1 0)
      { nowUs := 1000, down := some 1200, front := some 500 } 500
      (by decide) (by decide) rfl (by decide)).1
  · exact ((h.2
      { s_state := AutonavState.holdObstacle, s_targetAltMm := 1200,
        s_shapeId := 1, s_lastCmdUs := 0, s_obstEnterUs := 1000,
        shapeStartUs := 0, z_i := 0, z_prevErr := 0, altFilt := 1200 }
      { nowUs := 2000, down := some 1200, front := some 2000 }
      rfl (by decide)).2.1) 2000 rfl (by decide)

/-- For shape 1 (SQUARE), `shapeVel` depends on the elapsed time only
through `t / SEGMENT_TIME_MS % 4` (the segment index modulo 4). -/
theorem shapeVel_one_congr (c s : ℚ → ℚ) (t1 t2 : Nat)
    (e : t1 / SEGMENT_TIME_MS % 4 = t2 / SEGMENT_TIME_MS % 4) :
    shapeVel c s 1 t1 = shapeVel c s 1 t2 := by
  have h1 : shapeVel c s 1 t1 =
      (match t1 / SEGMENT_TIME_MS % 4 with
        | 0 => (SHAPE_SPEED, (0 : ℚ))
        | 1 => (0, SHAPE_SPEED)
        | 2 => (-SHAPE_SPEED, 0)
        | _ => (0, -SHAPE_SPEED)) := rfl
  have h2 : shapeVel c s 1 t2 =
      (match t2 / SEGMENT_TIME_MS % 4 with
        | 0 => (SHAPE_SPEED, (0 : ℚ))
        | 1 => (0, SHAPE_SPEED)
        | 2 => (-SHAPE_SPEED, 0)
        | _ => (0, -SHAPE_SPEED)) := rfl
  rw [h1, h2, e]

/-- Claim C7: square trajectory. In RUNNING with shape SQUARE (id 1), the
safety timer alive and an unblocked path, `autonavUpdate` emits the hold
thrust together with the square's horizontal velocity at the truncated
elapsed shape time; that velocity function takes the four axis directions
at 0.2 m/s at t = 0, 3000, 6000, 9000, 12000 ms and is periodic with
period 12000 ms. -/
theorem square_trajectory_periodicity (c s : ℚ → ℚ) :
    (∀ (st : EngineState) (inp : UpdateInput),
      st.s_state = AutonavState.running →
      st.s_shapeId = 1 →
      msSince inp.nowUs st.s_lastCmdUs ≤ SAFETY_TIMEOUT_MS →
      blockedOf inp.front = false →
      (autonavUpdate c s st inp).2 =
        some { thrust := (zHoldThrustCmd st inp.down).1,
               vx := (shapeVel c s 1 (msSince inp.nowUs st.shapeStartUs % 2 ^ 32)).1,
               vy := (shapeVel c s 1 (msSince inp.nowUs st.shapeStartUs % 2 ^ 32)).2 }) ∧
    shapeVel c s 1 0 = (SHAPE_SPEED, 0) ∧
    shapeVel c s 1 3000 = (0, SHAPE_SPEED) ∧
    shapeVel c s 1 6000 = (-SHAPE_SPEED, 0) ∧
    shapeVel c s 1 9000 = (0, -SHAPE_SPEED) ∧
    shapeVel c s 1 12000 = (SHAPE_SPEED, 0) ∧
    (∀ t : Nat, shapeVel c s 1 (t + 12000) = shapeVel c s 1 t) := by
  refine ⟨?_, rfl, rfl, rfl, rfl, rfl, ?_⟩
  · intro st inp hst hsh hsafe hbl
    have h1 : safetyStep inp.nowUs st = st := safetyStep_of_le _ _ hsafe
    have hst2 : ((zHoldThrustCmd (safetyStep inp.nowUs st) inp.down).2.2).s_state =
        AutonavState.running := by
      rw [h1, zHold_s_state]
      exact hst
    have hshape : ((zHoldThrustCmd (safetyStep inp.nowUs st) inp.down).2.2).s_shapeId = 1 := by
      rw [h1, zHold_s_shapeId]
      exact hsh
    have hstart : ((zHoldThrustCmd (safetyStep inp.nowUs st) inp.down).2.2).shapeStartUs =
        st.shapeStartUs := by
      rw [h1, zHold_shapeStartUs]
    simp [autonavUpdate, hst2, hshape, hstart, hbl]
    rw [h1]
  · exact fun t => shapeVel_one_congr c s (t + 12000) t
      (by show (t + 12000) / 3000 % 4 = t / 3000 % 4; omega)

/-- Claim C7, witness: at the start of a fresh SQUARE run the emitted
setpoint moves along +x at 0.2 m/s with the 30000 hover thrust, and one
concrete period assertion. -/
theorem square_trajectory_periodicity_witness :
    (autonavUpdate (fun _ => 0) (fun _ => 0)
        (autonavStartShape (autonavInit 0) 1 0)
        { nowUs := 1000, down := none, front := some 2000 }).2 =
      some { thrust := 27900, vx := 1 / 5, vy := 0 } ∧
    shapeVel (fun _ => 0) (fun _ => 0) 1 (500 + 12000) =
      shapeVel (fun _ => 0) (fun _ => 0) 1 500 := by
  have h := square_trajectory_periodicity (fun _ => 0) (fun _ => 0)
  constructor
  · have h1 := h.1 (autonavStartShape (autonavInit 0) 1 0)
      { nowUs := 1000, down := none, front := some 2000 }
      rfl rfl (by decide) (by decide)
    rw [h1, invalid_down_sensor_fallback]
    rfl
  · exact h.2.2.2.2.2.2 500

/-- One OVERRIDE step: with the heartbeat alive, `autonavUpdate` only runs
the PID bookkeeping, kicks the safety timer and returns without emitting a
setpoint. -/
theorem override_step (c s : ℚ → ℚ) (st : EngineState) (inp : UpdateInput)
    (hov : st.s_state = AutonavState.override)
    (h : msSince inp.nowUs st.s_lastCmdUs ≤ SAFETY_TIMEOUT_MS) :
    autonavUpdate c s st inp =
      (autonavKickSafety ((zHoldThrustCmd st inp.down).2.2) inp.nowUs, none) := by
  have h1 : safetyStep inp.nowUs st = st := safetyStep_of_le _ _ h
  have hst2 : ((zHoldThrustCmd (safetyStep inp.nowUs st) inp.down).2.2).s_state =
      AutonavState.override := by
    rw [h1, zHold_s_state]
    exact hov
  simp only [autonavUpdate, hst2]
  rw [h1]
  simp

/-- Claim C5: while the state is OVERRIDE, every `autonavUpdate` call of a
schedule whose gaps stay within the safety timeout emits no setpoint and
refreshes the safety timer, and the state remains OVERRIDE — in particular
no forced landing occurs no matter how much total time elapses without
external kicks. -/
theorem override_suppresses_autonomy (c s : ℚ → ℚ) (st : EngineState)
    (inputs : List UpdateInput)
    (hov : st.s_state = AutonavState.override)
    (hgaps : gapsOk st.s_lastCmdUs inputs = true) :
    (runUpdates c s st inputs).1.s_state = AutonavState.override ∧
    ∀ o ∈ (runUpdates c s st inputs).2, o = none := by
  induction inputs generalizing st with
  | nil => exact ⟨hov, by simp [runUpdates]⟩
  | cons i rest ih =>
    rw [gapsOk, Bool.and_eq_true, decide_eq_true_eq] at hgaps
    have hstep := override_step c s st i hov hgaps.1
    have hfst : (autonavUpdate c s st i).1 =
        autonavKickSafety ((zHoldThrustCmd st i.down).2.2) i.nowUs := by
      rw [hstep]
    have hsnd : (autonavUpdate c s st i).2 = none := by
      rw [hstep]
    have hov2 : (autonavKickSafety ((zHoldThrustCmd st i.down).2.2) i.nowUs).s_state =
        AutonavState.override := by
      simp [autonavKickSafety, zHold_s_state, hov]
    have hlast : (autonavKickSafety ((zHoldThrustCmd st i.down).2.2) i.nowUs).s_lastCmdUs =
        i.nowUs := by
      simp [autonavKickSafety]
    have hrec := ih (autonavKickSafety ((zHoldThrustCmd st i.down).2.2) i.nowUs)
      hov2 (by rw [hlast]; exact hgaps.2)
    constructor
    · show (runUpdates c s st (i :: rest)).1.s_state = AutonavState.override
      simp only [runUpdates, hfst, hsnd]
      exact hrec.1
    · intro o ho
      simp only [runUpdates, hfst, hsnd, List.mem_cons] at ho
      rcases ho with ho | ho
      · exact ho
      · exact hrec.2 o ho

/-- Claim C5, witness: an OVERRIDE session updated at 25 s, 50 s and 75 s
(every gap at most 30 s, total elapsed 75 s, no external kicks) is still in
OVERRIDE and has emitted no setpoint. -/
theorem override_suppresses_autonomy_witness :
    (runUpdates (fun _ => 0) (fun _ => 0) (autonavEnterOverride (autonavInit 0))
        [{ nowUs := 25000000, down := none, front := none },
         { nowUs := 50000000, down := none, front := none },
         { nowUs := 75000000, down := none, front := none }]).1.s_state =
      AutonavState.override ∧
    ∀ o ∈ (runUpdates (fun _ => 0) (fun _ => 0)
        (autonavEnterOverride (autonavInit 0))
        [{ nowUs := 25000000, down := none, front := none },
         { nowUs := 50000000, down := none, front := none },
         { nowUs := 75000000, down := none, front := none }]).2, o = none :=
  override_suppresses_autonomy (fun _ => 0) (fun _ => 0)
    (autonavEnterOverride (autonavInit 0))
    [{ nowUs := 25000000, down := none, front := none },
     { nowUs := 50000000, down := none, front := none },
     { nowUs := 75000000, down := none, front := none }]
    (by decide) (by decide)
